import Mathlib

/-!
Shallow embedding of the core logic of `src/streamlit_app.py` (an inventory
management app): row normalization (`clean_dataframe_types`), data loading
(`load_inventory_data`), the grid edit-merge performed on each render
(`create_inventory_editor`, lines 394-403), the delete-selected handler
(lines 426-470), the save handler (`save_to_github`, lines 115-160, and the
per-location save button, lines 473-484), the search bar
(`create_search_bar`, lines 186-206), and the shelf/layer validity table
(`create_shelf_visualization`, lines 277-311).
-/

namespace SampleRoom

/-- A spreadsheet cell as it arrives from pandas: a string, a number, or a
missing/NaN value. Numeric cells are modelled as integers (the value domain
the claims exercise). -/
inductive Cell where
  | str : String → Cell
  | num : Int → Cell
  | nan : Cell
deriving DecidableEq, Repr

/-- A raw (pre-normalization) row: the seven columns of the inventory
table, each holding an arbitrary cell. -/
structure RawRow where
  location : Cell
  description : Cell
  unit : Cell
  model : Cell
  snLot : Cell
  remark : Cell
  imageUrl : Cell
deriving DecidableEq, Repr

/-- A normalized row, as produced by `clean_dataframe_types`: string-typed
text columns (never a NaN sentinel) and an int64 Unit column. -/
structure Row where
  location : String
  description : String
  unit : Int
  model : String
  snLot : String
  remark : String
  imageUrl : String
deriving DecidableEq, Repr

/-- Digits-only parse of a character list to a natural number; `none` when
empty or when any character is not a decimal digit. -/
def digitsToNat? (cs : List Char) : Option Nat :=
  if cs.isEmpty then none
  else cs.foldl
    (fun acc c =>
      acc.bind (fun n => if c.isDigit then some (n * 10 + (c.toNat - 48)) else none))
    (some 0)

/-- Embedding of `pd.to_numeric(x, errors="coerce")` on the string values
this model covers: an optionally signed decimal-integer literal parses to
its value, anything else coerces to `none` (NaN). -/
def toNumericInt (s : String) : Option Int :=
  match s.toList with
  | '-' :: rest => (digitsToNat? rest).map (fun n => -(n : Int))
  | '+' :: rest => (digitsToNat? rest).map (fun n => (n : Int))
  | l => (digitsToNat? l).map (fun n => (n : Int))

/-- One text column entry of `clean_dataframe_types`:
`astype("string")` then `fillna("")` — strings pass through, numbers render
to their decimal form, missing/NaN becomes the empty string
(src/streamlit_app.py lines 63-74). -/
def coerceText (c : Cell) : String :=
  match c with
  | Cell.str s => s
  | Cell.num n => toString n
  | Cell.nan => ""

/-- The Unit column entry of `clean_dataframe_types`:
`pd.to_numeric(errors="coerce").fillna(0).astype("int64")`
(src/streamlit_app.py line 65). -/
def coerceUnit (c : Cell) : Int :=
  match c with
  | Cell.str s => (toNumericInt s).getD 0
  | Cell.num n => n
  | Cell.nan => 0

/-- Row-wise action of `clean_dataframe_types` (src/streamlit_app.py
lines 58-76): every text column through `coerceText`, Unit through
`coerceUnit`. -/
def cleanRow (raw : RawRow) : Row :=
  { location := coerceText raw.location
    description := coerceText raw.description
    unit := coerceUnit raw.unit
    model := coerceText raw.model
    snLot := coerceText raw.snLot
    remark := coerceText raw.remark
    imageUrl := coerceText raw.imageUrl }

/-- A raw table as read by `pd.read_excel`: the column names present, and
the rows (lists of cells positionally matching `cols`). -/
structure RawTable where
  cols : List String
  cells : List (List Cell)

/-- The column-access order of `clean_dataframe_types`
(src/streamlit_app.py lines 63-69): Location, Description, Unit, Model,
SN/Lot, Remark, Image_URL. A missing column raises `KeyError` at its first
access, so the first missing name in this order is the one reported. -/
def accessOrder : List String :=
  ["Location", "Description", "Unit", "Model", "SN/Lot", "Remark", "Image_URL"]

/-- First required column (in access order) absent from `cols`, if any. -/
def firstMissingColumn (cols : List String) : Option String :=
  accessOrder.find? (fun c => !(cols.contains c))

/-- Cell of a raw row under a named column (positional lookup through the
header list); only consulted for columns present in `cols`. -/
def getCell (cols : List String) (row : List Cell) (name : String) : Cell :=
  match cols.findIdx? (fun c => c == name) with
  | some i => row.getD i Cell.nan
  | none => Cell.nan

/-- Assemble the seven named columns of one raw row. -/
def rowFromCells (cols : List String) (row : List Cell) : RawRow :=
  { location := getCell cols row "Location"
    description := getCell cols row "Description"
    unit := getCell cols row "Unit"
    model := getCell cols row "Model"
    snLot := getCell cols row "SN/Lot"
    remark := getCell cols row "Remark"
    imageUrl := getCell cols row "Image_URL" }

/-- Embedding of `clean_dataframe_types` on a whole table
(src/streamlit_app.py lines 58-76): accessing a missing column raises
`KeyError` naming that column (the first missing one in access order);
otherwise every row is normalized. The python code coerces earlier columns
on a private copy before a later missing column raises, and that copy is
discarded, so checking for the first missing column up front is
observationally the same. -/
def cleanDataframeTypes (t : RawTable) : Except String (List Row) :=
  match firstMissingColumn t.cols with
  | some c => Except.error c
  | none => Except.ok (t.cells.map (fun row => cleanRow (rowFromCells t.cols row)))

/-- Embedding of `load_inventory_data` (src/streamlit_app.py lines 30-56):
a failed download (`Except.error`) or any exception inside the try block —
including the `KeyError` from `clean_dataframe_types` — is caught and the
empty table is returned. -/
def loadInventoryData (fetched : Except Unit RawTable) : List Row :=
  match fetched with
  | Except.error _ => []
  | Except.ok t =>
    match cleanDataframeTypes t with
    | Except.ok rows => rows
    | Except.error _ => []

/-- The session state of the app (src/streamlit_app.py lines 162-168):
the master inventory table, the selected shelf location, and the
unsaved-changes flag. -/
structure AppState where
  inventory : List Row
  selectedLocation : Option String
  dataChanged : Bool
deriving DecidableEq, Repr

/-- Clicking a shelf-location button (src/streamlit_app.py lines 306-308):
set `selected_location` and rerun. The editor body does not execute in the
rerun that handles the click, so no other state changes here. -/
def selectLocation (s : AppState) (loc : String) : AppState :=
  { s with selectedLocation := some loc }

/-- The render-time edit merge of `create_inventory_editor`
(src/streamlit_app.py lines 394-403): drop every master row whose Location
equals the active location, append the (cleaned) grid rows, and mark the
data changed. The grid rows are appended as returned — their Location
field is not re-stamped to the active location. -/
def updateEditedData (s : AppState) (loc : String) (edited : List RawRow) : AppState :=
  { s with
      inventory :=
        s.inventory.filter (fun r => !(r.location == loc)) ++ edited.map cleanRow
      dataChanged := true }

/-- The row-identification test of the delete handler (src/streamlit_app.py
lines 444-447): two rows are the same row when their Description, Model,
SN/Lot and Unit fields agree. -/
def matchRow (current sel : Row) : Bool :=
  current.description == sel.description &&
  current.model == sel.model &&
  current.snLot == sel.snLot &&
  current.unit == sel.unit

/-- The delete-selected handler (src/streamlit_app.py lines 426-470): with
nothing selected, only a warning is shown (state unchanged); otherwise the
active-location rows field-matching some selected row are removed and the
rest of the table is kept, in one unconditional step. -/
def deleteSelected (s : AppState) (loc : String) (selected : List Row) : AppState :=
  if selected.isEmpty then s
  else
    let others := s.inventory.filter (fun r => !(r.location == loc))
    let current := s.inventory.filter (fun r => r.location == loc)
    let keep := current.filter (fun r => !(selected.any (fun sel => matchRow r sel)))
    { s with inventory := others ++ keep, dataChanged := true }

/-- Embedding of `save_to_github` (src/streamlit_app.py lines 115-160).
`hasToken`: whether `GITHUB_TOKEN` is configured; `getRaises`: whether the
GET of the current file raises (a raised exception is caught and reported
as failure); `putStatuses`: the HTTP statuses the server would answer to
successive PUT requests (empty list: the first PUT raises). The result is
the reported success flag paired with the number of PUT attempts actually
issued: the function issues at most one PUT and never retries. -/
def saveToGithub (hasToken getRaises : Bool) (putStatuses : List Nat) : Bool × Nat :=
  if !hasToken then (false, 0)
  else if getRaises then (false, 0)
  else
    match putStatuses with
    | [] => (false, 1)
    | status :: _ => ((status == 200 || status == 201 : Bool), 1)

/-- The per-location save button (src/streamlit_app.py lines 473-484, and
identically the global save at lines 222-234): on a reported success the
`data_changed` flag is cleared; on failure only an error message is shown
and the state is untouched. The inventory is never modified. -/
def editorSaveClick (s : AppState) (hasToken getRaises : Bool) (putStatuses : List Nat) :
    AppState :=
  if hasToken then
    if (saveToGithub hasToken getRaises putStatuses).1 then
      { s with dataChanged := false }
    else s
  else s

/-- The refresh button (src/streamlit_app.py lines 237-242 and 487-492):
reload from the remote file, replacing the master table with whatever
`load_inventory_data` returns, and clear the changed flag. -/
def refreshClick (s : AppState) (fetched : Except Unit RawTable) : AppState :=
  { s with inventory := loadInventoryData fetched, dataChanged := false }

/-- The shelf letters (src/streamlit_app.py line 278). -/
def shelfLetters : List String := ["A", "B", "C", "D", "E"]

/-- The valid layers of each shelf (src/streamlit_app.py lines 287-294):
A and B have layers 1-3, C and D 1-4, E only 4. -/
def validLayers (shelf : String) : List Nat :=
  if shelf == "A" || shelf == "B" then [1, 2, 3]
  else if shelf == "C" || shelf == "D" then [1, 2, 3, 4]
  else if shelf == "E" then [4]
  else []

/-- All valid location keys, as shelf letter concatenated with layer
number (the strings the Location column is matched against). -/
def validLocations : List String :=
  shelfLetters.flatMap (fun sh => (validLayers sh).map (fun l => sh ++ toString l))

/-- Lower-cased character list of a string (the shared normalization of a
case-insensitive comparison). -/
def lowerChars (s : String) : List Char := s.toLower.toList

/-- Whether `n` is an initial segment of `h`. -/
def leadMatch : List Char → List Char → Bool
  | [], _ => true
  | _ :: _, [] => false
  | a :: as, b :: bs => a == b && leadMatch as bs

/-- Whether `n` occurs contiguously anywhere inside `h`. -/
def subAt (n : List Char) : List Char → Bool
  | [] => n.isEmpty
  | c :: t => leadMatch n (c :: t) || subAt n t

/-- Case-insensitive substring test: embedding of
`str.contains(re.compile(re.escape(q), re.IGNORECASE))`
(src/streamlit_app.py lines 193-197) — the escaped pattern matches exactly
the literal query text, case-insensitively. -/
def ciContains (hay needle : String) : Bool :=
  subAt (lowerChars needle) (lowerChars hay)

/-- The per-row search test (src/streamlit_app.py lines 194-198): the query
occurs in Description, SN/Lot or Model. -/
def rowMatches (q : String) (r : Row) : Bool :=
  ciContains r.description q || ciContains r.snLot q || ciContains r.model q

/-- Embedding of the search bar logic (src/streamlit_app.py lines 186-206):
an empty query takes the no-filter branch (`none`, the informational
message), a non-empty query filters the whole master table. -/
def searchInventory (inv : List Row) (q : String) : Option (List Row) :=
  if q = "" then none else some (inv.filter (rowMatches q))

/-- The spec-side reading of a case-insensitive substring occurrence: the
lower-cased query appears contiguously inside the lower-cased field. -/
def OccursCI (q field : String) : Prop :=
  ∃ a b, lowerChars field = a ++ lowerChars q ++ b

/-- Concrete row stored at location A1 (scenario input). -/
def rowC1 : Row := ⟨"A1", "Widget", 1, "M1", "S1", "", ""⟩

/-- Session editing location A1 with unsaved changes (scenario input). -/
def stateC1 : AppState := ⟨[rowC1], some "A1", true⟩

/-- A grid row whose Location field an edit changed from A1 to B2. -/
def rawC1Moved : RawRow :=
  ⟨Cell.str "B2", Cell.str "Widget", Cell.num 1, Cell.str "M1", Cell.str "S1",
    Cell.str "", Cell.str ""⟩

/-- A grid row edited in place, Location still A1. -/
def rawC1Edit : RawRow :=
  ⟨Cell.str "A1", Cell.str "Widget v2", Cell.num 2, Cell.str "M1", Cell.str "S1",
    Cell.str "", Cell.str ""⟩

/-- Concrete row at A1 (scenario input for the reconcile claim). -/
def rowC2 : Row := ⟨"A1", "Item", 1, "", "", "", ""⟩

/-- Session editing location A1 (scenario input for the reconcile claim). -/
def stateC2 : AppState := ⟨[rowC2], some "A1", false⟩

/-- A grid row whose Location field was edited to B2 (reconcile claim). -/
def rawC2Moved : RawRow :=
  ⟨Cell.str "B2", Cell.str "Item", Cell.num 1, Cell.str "", Cell.str "",
    Cell.str "", Cell.str ""⟩

/-- Concrete row for the commit-atomicity scenario. -/
def rowC4 : Row := ⟨"A1", "Monitor", 2, "MX", "SN9", "", ""⟩

/-- Dirty session before a failing commit (commit-atomicity scenario). -/
def stateC4 : AppState := ⟨[rowC4], some "A1", true⟩

/-- A raw table missing the Model, SN/Lot, Remark and Image_URL columns. -/
def tabC6 : RawTable :=
  ⟨["Location", "Description", "Unit"], [[Cell.str "A1", Cell.str "x", Cell.num 1]]⟩

/-- A row already present before the failing import. -/
def rowC6 : Row := ⟨"A1", "Existing", 1, "", "", "", ""⟩

/-- Session holding data before the failing import. -/
def stateC6 : AppState := ⟨[rowC6], some "A1", false⟩

/-- The single matching row of the search scenario. -/
def licoxRow : Row := ⟨"A1", "Codman Licox PtO2 Monitor", 1, "", "", "", ""⟩

/-- The only row of partition C3 (confirmation scenario). -/
def rowC9 : Row := ⟨"C3", "Widget", 2, "M", "S", "", ""⟩

/-- Session with one row in partition C3 (confirmation scenario). -/
def stateC9 : AppState := ⟨[rowC9], some "C3", false⟩

/-- First of two rows in partition C3. -/
def rowC9a : Row := ⟨"C3", "Alpha", 1, "MA", "SA", "", ""⟩

/-- Second of two rows in partition C3. -/
def rowC9b : Row := ⟨"C3", "Beta", 1, "MB", "SB", "", ""⟩

/-- Session with two rows in partition C3. -/
def stateC9b : AppState := ⟨[rowC9a, rowC9b], some "C3", false⟩

/-- A row of partition A1 (delete-by-value scenario). -/
def rowC10 : Row := ⟨"A1", "Dup", 1, "M", "S", "first", ""⟩

/-- A row agreeing with `rowC10` on Description, Model, SN/Lot and Unit but
differing in Remark. -/
def rowC10b : Row := ⟨"A1", "Dup", 1, "M", "S", "second", "u"⟩

/-- A field-identical row living in another partition (B2). -/
def rowC10other : Row := ⟨"B2", "Dup", 1, "M", "S", "", ""⟩

/-- Session with two value-identical rows in A1 and one twin in B2. -/
def stateC10 : AppState := ⟨[rowC10, rowC10b, rowC10other], some "A1", true⟩

/-- Filtering by a test after keeping only its failures yields nothing. -/
theorem filter_not_filter_eq_nil {α : Type} (p : α → Bool) (l : List α) :
    (l.filter (fun a => !(p a))).filter p = [] := by
  rw [List.filter_filter]
  exact List.filter_eq_nil_iff.mpr (fun a _ => by cases h : p a <;> simp [h])

/-- Filtering is idempotent. -/
theorem filter_filter_self {α : Type} (p : α → Bool) (l : List α) :
    (l.filter p).filter p = l.filter p :=
  List.filter_eq_self.mpr (fun _a ha => (List.mem_filter.mp ha).2)

/-- Rows kept from the active-location slice still carry that location. -/
theorem filter_key_of_filter_key (inv : List Row) (k : String) (g : Row → Bool) :
    ((inv.filter (fun r => r.location == k)).filter g).filter (fun r => r.location == k) =
      (inv.filter (fun r => r.location == k)).filter g :=
  List.filter_eq_self.mpr
    (fun _a ha => (List.mem_filter.mp (List.mem_filter.mp ha).1).2)

/-- Rows kept from the active-location slice are not at other locations. -/
theorem filter_not_of_filter_key (inv : List Row) (k : String) (g : Row → Bool) :
    ((inv.filter (fun r => r.location == k)).filter g).filter (fun r => !(r.location == k)) =
      [] :=
  List.filter_eq_nil_iff.mpr
    (fun a ha => by
      have h1 := (List.mem_filter.mp (List.mem_filter.mp ha).1).2
      simp [h1])

/-- Removing the rows of one key commutes away under a filter for a
different key. -/
theorem filter_loc_filter_ne (l : List Row) (k k1 : String) (h : ¬ k1 = k) :
    (l.filter (fun r => !(r.location == k))).filter (fun r => r.location == k1) =
      l.filter (fun r => r.location == k1) := by
  rw [List.filter_filter]
  refine List.filter_congr (fun a _ => ?_)
  cases h1 : (a.location == k1) with
  | false => simp
  | true =>
    have ha : a.location = k1 := by simpa using h1
    have h2 : (a.location == k) = false := by simp [ha, h]
    simp [h2]

/-- Per-key slices of a table are unaffected by first removing the rows of
a key not among those considered. -/
theorem flatMap_filter_drop_key (ks : List String) (k : String) (l : List Row)
    (h : ¬ k ∈ ks) :
    (ks.flatMap fun k1 =>
        (l.filter (fun r => !(r.location == k))).filter (fun r => r.location == k1)) =
      ks.flatMap (fun k1 => l.filter (fun r => r.location == k1)) := by
  induction ks with
  | nil => rfl
  | cons a t ih =>
    simp only [List.flatMap_cons]
    rw [filter_loc_filter_ne l k a (fun e => h (e ▸ List.mem_cons_self a t)),
      ih (fun hm => h (List.mem_cons_of_mem a hm))]

/-- Folding the key removed by an inner filter into a containment test. -/
theorem filter_not_contains_cons (l : List Row) (k : String) (ks : List String) :
    (l.filter (fun r => !(r.location == k))).filter
        (fun r => !(ks.contains r.location)) =
      l.filter (fun r => !((k :: ks).contains r.location)) := by
  rw [List.filter_filter]
  refine List.filter_congr (fun a _ => ?_)
  cases h1 : (a.location == k) with
  | true =>
    have ha : a.location = k := by simpa using h1
    simp [List.contains_cons, ha]
  | false =>
    have ha : ¬ a.location = k := by simpa using h1
    simp [List.contains_cons, h1, ha]

/-- Any row list is a permutation of its per-key slices for a duplicate-free
key list, followed by the rows whose key is outside that list. -/
theorem perm_partition_by_keys :
    ∀ (ks : List String), ks.Nodup → ∀ (l : List Row),
      l.Perm
        ((ks.flatMap fun k => l.filter (fun r => r.location == k)) ++
          l.filter (fun r => !(ks.contains r.location)))
  | [], _, l => by simp
  | k :: ks, hnd, l => by
    obtain ⟨hk, hnd1⟩ := List.nodup_cons.mp hnd
    have h1 : l.Perm
        (l.filter (fun r => r.location == k) ++
          l.filter (fun r => !(r.location == k))) :=
      (List.filter_append_perm _ l).symm
    have h2 := perm_partition_by_keys ks hnd1 (l.filter (fun r => !(r.location == k)))
    rw [flatMap_filter_drop_key ks k l hk, filter_not_contains_cons l k ks] at h2
    refine h1.trans ((List.Perm.append_left _ h2).trans ?_)
    simp [List.flatMap_cons, List.append_assoc]

/-- Claim C1 (counterexample): the Location column is editable and the
edit merge does not re-stamp it, so with partition A1 active and dirty, a
working row whose Location an edit changed to B2 is missing from the A1
partition view after switching to B2 — the view of the previous key does
not equal the working rows, contrary to the claim. -/
theorem c1_switch_safe_counterexample :
    stateC1.selectedLocation = some "A1" ∧ stateC1.dataChanged = true ∧
    ¬ ("B2" = "A1") ∧
    ¬ ((selectLocation (updateEditedData stateC1 "A1" [rawC1Moved]) "B2").inventory.filter
        (fun r => r.location == "A1") = [rawC1Moved].map cleanRow) := by
  decide

/-- Claim C1 (amended): with partition k1 active and dirty, switching to a
different partition k2 preserves the edits: provided no edit altered a
Location field (every cleaned working row is still at k1), the partition
view of k1 afterwards equals the working rows and the active key is k2;
unconditionally the working rows are appended to the master table, so they
are never discarded. -/
theorem c1_switch_safe_amended (s : AppState) (k1 k2 : String) (edited : List RawRow)
    (_hact : s.selectedLocation = some k1) (_hdirty : s.dataChanged = true)
    (_hne : ¬ k2 = k1) (hloc : ∀ r ∈ edited.map cleanRow, r.location = k1) :
    (selectLocation (updateEditedData s k1 edited) k2).inventory.filter
        (fun r => r.location == k1) = edited.map cleanRow ∧
    (selectLocation (updateEditedData s k1 edited) k2).selectedLocation = some k2 ∧
    ∃ pre, (selectLocation (updateEditedData s k1 edited) k2).inventory =
      pre ++ edited.map cleanRow := by
  refine ⟨?_, rfl, ⟨s.inventory.filter (fun r => !(r.location == k1)), rfl⟩⟩
  show (s.inventory.filter (fun r => !(r.location == k1)) ++
      edited.map cleanRow).filter (fun r => r.location == k1) = edited.map cleanRow
  rw [List.filter_append, filter_not_filter_eq_nil, List.nil_append]
  exact List.filter_eq_self.mpr (fun a ha => by simp [hloc a ha])

/-- Claim C1 (witness): a concrete dirty session at A1 whose single working
row kept Location A1; switching to B2 preserves the edit. -/
theorem c1_switch_safe_witness :
    (stateC1.selectedLocation = some "A1" ∧ stateC1.dataChanged = true ∧
      ¬ ("B2" = "A1") ∧ ∀ r ∈ [rawC1Edit].map cleanRow, r.location = "A1") ∧
    ((selectLocation (updateEditedData stateC1 "A1" [rawC1Edit]) "B2").inventory.filter
        (fun r => r.location == "A1") = [rawC1Edit].map cleanRow ∧
      (selectLocation (updateEditedData stateC1 "A1" [rawC1Edit]) "B2").selectedLocation =
        some "B2" ∧
      ∃ pre, (selectLocation (updateEditedData stateC1 "A1" [rawC1Edit]) "B2").inventory =
        pre ++ [rawC1Edit].map cleanRow) :=
  ⟨⟨rfl, rfl, by decide, by decide⟩,
    c1_switch_safe_amended stateC1 "A1" "B2" [rawC1Edit] rfl rfl (by decide) (by decide)⟩

/-- Claim C2 (counterexample): reconciling key A1 with a grid row whose
Location field an edit changed to B2 leaves that appended row stamped B2,
not A1 — the code does not re-stamp the location, contrary to the claim
that no appended row carries a location other than the reconciled key. -/
theorem c2_reconcile_counterexample :
    ((updateEditedData stateC2 "A1" [rawC2Moved]).inventory.map (fun r => r.location)) =
      ["B2"] ∧ ¬ ("B2" = "A1") := by
  decide

/-- Claim C2 (amended): the edit merge removes every master row at the
reconciled key and appends the cleaned new rows at the end unchanged — no
re-stamping — so the rows found at the key afterwards are exactly the new
rows that (still) carry that key, the new rows form the tail of the table,
and the rows at other keys form its head. -/
theorem c2_reconcile_amended (s : AppState) (k : String) (edited : List RawRow) :
    (updateEditedData s k edited).inventory.filter (fun r => r.location == k) =
      (edited.map cleanRow).filter (fun r => r.location == k) ∧
    (∃ pre, (updateEditedData s k edited).inventory = pre ++ edited.map cleanRow) ∧
    (∃ suf, (updateEditedData s k edited).inventory =
      s.inventory.filter (fun r => !(r.location == k)) ++ suf) := by
  refine ⟨?_, ⟨_, rfl⟩, ⟨_, rfl⟩⟩
  show (s.inventory.filter (fun r => !(r.location == k)) ++
      edited.map cleanRow).filter (fun r => r.location == k) =
    (edited.map cleanRow).filter (fun r => r.location == k)
  rw [List.filter_append, filter_not_filter_eq_nil, List.nil_append]

/-- Claim C3 (counterexample): with the token configured, a transient 500
on the first PUT and a 200 the server would give a second PUT, the commit
reports failure after exactly one attempt — there is no retry, so a commit
that fails transiently and then would succeed does not report success. -/
theorem c3_retry_counterexample :
    saveToGithub true false [500, 200] = (false, 1) ∧
    ¬ ((saveToGithub true false [500, 200]).1 = true) := by
  decide

/-- Claim C3 (amended): `save_to_github` issues at most one PUT attempt and
never retries: it reports success exactly when the token is configured, the
GET does not raise, and the single PUT returns 200 or 201; any failure is
reported immediately. -/
theorem c3_single_attempt (hasToken getRaises : Bool) (putStatuses : List Nat) :
    (saveToGithub hasToken getRaises putStatuses).2 ≤ 1 ∧
    ((saveToGithub hasToken getRaises putStatuses).1 = true ↔
      hasToken = true ∧ getRaises = false ∧
        ∃ status, putStatuses.head? = some status ∧ (status = 200 ∨ status = 201)) := by
  cases hasToken <;> cases getRaises <;> cases putStatuses <;>
    simp [saveToGithub]

/-- Claim C4: a commit attempt never touches the master table; when the
commit reports failure the whole session state is exactly as before, and
the dirty flag can only have been cleared by a successful commit. -/
theorem c4_commit_atomicity (s : AppState) (hasToken getRaises : Bool)
    (putStatuses : List Nat) :
    (editorSaveClick s hasToken getRaises putStatuses).inventory = s.inventory ∧
    ((saveToGithub hasToken getRaises putStatuses).1 = false →
      editorSaveClick s hasToken getRaises putStatuses = s) ∧
    ((editorSaveClick s hasToken getRaises putStatuses).dataChanged = false →
      (saveToGithub hasToken getRaises putStatuses).1 = true ∨ s.dataChanged = false) := by
  cases hasToken with
  | false => exact ⟨rfl, fun _ => rfl, fun h => Or.inr h⟩
  | true =>
    cases hres : (saveToGithub true getRaises putStatuses).1 with
    | false =>
      refine ⟨?_, fun _ => ?_, fun h => ?_⟩ <;>
        simp [editorSaveClick, hres] at *
      exact h
    | true =>
      refine ⟨?_, fun hcontra => ?_, fun _ => Or.inl rfl⟩
      · simp [editorSaveClick, hres]
      · exact absurd hcontra (by decide)

/-- Claim C4 (witness): a dirty concrete session and a failing PUT — the
commit reports failure and the state, dirty flag included, is unchanged. -/
theorem c4_commit_atomicity_witness :
    (saveToGithub true false [500]).1 = false ∧
    editorSaveClick stateC4 true false [500] = stateC4 :=
  ⟨by decide, (c4_commit_atomicity stateC4 true false [500]).2.1 (by decide)⟩

/-- Claim C5: the master table is always a permutation of the per-key
partition views over all valid location keys followed by the rows whose
location is not a valid shelf-layer pair; the edit merge keeps every row at
another (including invalid) location, and delete-selected leaves the rows
at other locations exactly unchanged. -/
theorem c5_invalid_key_preservation (s : AppState) (k : String)
    (edited : List RawRow) (selected : List Row) :
    s.inventory.Perm
      ((validLocations.flatMap fun v => s.inventory.filter (fun r => r.location == v)) ++
        s.inventory.filter (fun r => !(validLocations.contains r.location))) ∧
    List.Sublist (s.inventory.filter (fun r => !(r.location == k)))
      (updateEditedData s k edited).inventory ∧
    (deleteSelected s k selected).inventory.filter (fun r => !(r.location == k)) =
      s.inventory.filter (fun r => !(r.location == k)) := by
  refine ⟨perm_partition_by_keys validLocations (by decide) s.inventory, ?_, ?_⟩
  · exact List.sublist_append_left _ _
  · cases hsel : selected.isEmpty with
    | true => simp [deleteSelected, hsel]
    | false =>
      simp only [deleteSelected, hsel, Bool.false_eq_true, if_false]
      rw [List.filter_append, filter_filter_self, filter_not_of_filter_key,
        List.append_nil]

/-- Claim C6 (counterexample): a table missing Model, SN/Lot, Remark and
Image_URL is rejected with a KeyError naming only Model — not exactly the
set of missing columns — and a refresh that hits this failure replaces the
previously loaded master table with the empty table instead of leaving it
as it was. -/
theorem c6_schema_counterexample :
    cleanDataframeTypes tabC6 = Except.error "Model" ∧
    ¬ ("Remark" ∈ tabC6.cols) ∧ ¬ ("Model" = "Remark") ∧
    loadInventoryData (Except.ok tabC6) = [] ∧
    (refreshClick stateC6 (Except.ok tabC6)).inventory = [] ∧
    ¬ (stateC6.inventory = []) :=
  ⟨rfl, by decide, by decide, rfl, rfl, by decide⟩

/-- Claim C6 (amended): importing a table missing a required column is
rejected — cleaning fails with an error naming one missing required column
(the first in the fixed access order), not the complete set — and the
loader turns the caught failure into the empty table, so after a refresh
the master table is empty rather than whatever it was before. -/
theorem c6_schema_amended (t : RawTable) (c : String)
    (hmem : c ∈ accessOrder) (hmiss : ¬ c ∈ t.cols) :
    (∃ c1, cleanDataframeTypes t = Except.error c1 ∧ c1 ∈ accessOrder ∧
      ¬ c1 ∈ t.cols) ∧
    loadInventoryData (Except.ok t) = [] ∧
    ∀ s : AppState, (refreshClick s (Except.ok t)).inventory = [] := by
  have hfind : ∃ c1, firstMissingColumn t.cols = some c1 := by
    cases h : firstMissingColumn t.cols with
    | some c1 => exact ⟨c1, rfl⟩
    | none =>
      exfalso
      have hall := List.find?_eq_none.mp h c hmem
      simp only [Bool.not_eq_true] at hall
      exact hmiss (by simpa using hall)
  obtain ⟨c1, hc1⟩ := hfind
  have hp := List.find?_some hc1
  have hmem1 := List.mem_of_find?_eq_some hc1
  have hnotin : ¬ c1 ∈ t.cols := by
    intro hin
    rw [Bool.not_eq_eq_eq_not] at hp
    simp at hp
    exact hp hin
  refine ⟨⟨c1, ?_, hmem1, hnotin⟩, ?_, fun s => ?_⟩
  · simp [cleanDataframeTypes, hc1]
  · simp [loadInventoryData, cleanDataframeTypes, hc1]
  · simp [refreshClick, loadInventoryData, cleanDataframeTypes, hc1]

/-- Claim C6 (witness): the concrete table missing Model is rejected and
loads as the empty table. -/
theorem c6_schema_witness :
    ("Model" ∈ accessOrder ∧ ¬ "Model" ∈ tabC6.cols) ∧
    ((∃ c1, cleanDataframeTypes tabC6 = Except.error c1 ∧ c1 ∈ accessOrder ∧
        ¬ c1 ∈ tabC6.cols) ∧
      loadInventoryData (Except.ok tabC6) = [] ∧
      ∀ s : AppState, (refreshClick s (Except.ok tabC6)).inventory = []) :=
  ⟨⟨by decide, by decide⟩, c6_schema_amended tabC6 "Model" (by decide) (by decide)⟩

/-- Claim C7: normalization is a total function into typed rows — it never
throws; a Unit cell failing numeric coercion becomes 0 and a numeric string
becomes its integer; a missing/NaN cell in any text column becomes the
empty string (and a missing Unit becomes 0), whatever the other cells are. -/
theorem c7_normalization_total :
    (∀ raw : RawRow, ∃ r : Row, cleanRow raw = r) ∧
    (∀ l d m sl rm iu, (cleanRow ⟨l, d, Cell.str "abc", m, sl, rm, iu⟩).unit = 0) ∧
    (∀ l d m sl rm iu, (cleanRow ⟨l, d, Cell.str "3", m, sl, rm, iu⟩).unit = 3) ∧
    (∀ l d m sl rm iu, (cleanRow ⟨l, d, Cell.nan, m, sl, rm, iu⟩).unit = 0) ∧
    (∀ d u m sl rm iu, (cleanRow ⟨Cell.nan, d, u, m, sl, rm, iu⟩).location = "") ∧
    (∀ l u m sl rm iu, (cleanRow ⟨l, Cell.nan, u, m, sl, rm, iu⟩).description = "") ∧
    (∀ l d u sl rm iu, (cleanRow ⟨l, d, u, Cell.nan, sl, rm, iu⟩).model = "") ∧
    (∀ l d u m rm iu, (cleanRow ⟨l, d, u, m, Cell.nan, rm, iu⟩).snLot = "") ∧
    (∀ l d u m sl iu, (cleanRow ⟨l, d, u, m, sl, Cell.nan, iu⟩).remark = "") ∧
    (∀ l d u m sl rm, (cleanRow ⟨l, d, u, m, sl, rm, Cell.nan⟩).imageUrl = "") :=
  ⟨fun raw => ⟨cleanRow raw, rfl⟩,
    fun _ _ _ _ _ _ => rfl, fun _ _ _ _ _ _ => rfl, fun _ _ _ _ _ _ => rfl,
    fun _ _ _ _ _ _ => rfl, fun _ _ _ _ _ _ => rfl, fun _ _ _ _ _ _ => rfl,
    fun _ _ _ _ _ _ => rfl, fun _ _ _ _ _ _ => rfl, fun _ _ _ _ _ _ => rfl⟩

/-- `leadMatch` holds exactly when the needle is an initial segment. -/
theorem leadMatch_eq_true_iff :
    ∀ (n h : List Char), leadMatch n h = true ↔ ∃ t, h = n ++ t
  | [], h => by simp [leadMatch]
  | a :: as, [] => by simp [leadMatch]
  | a :: as, b :: bs => by
    simp only [leadMatch, Bool.and_eq_true, beq_iff_eq,
      leadMatch_eq_true_iff as bs, List.cons_append]
    constructor
    · rintro ⟨rfl, t, rfl⟩
      exact ⟨t, rfl⟩
    · rintro ⟨t, he⟩
      injection he with h1 h2
      exact ⟨h1.symm, t, h2⟩

/-- `subAt` holds exactly when the needle occurs contiguously inside. -/
theorem subAt_eq_true_iff :
    ∀ (n h : List Char), subAt n h = true ↔ ∃ a b, h = a ++ n ++ b
  | n, [] => by
    simp only [subAt, List.isEmpty_iff]
    constructor
    · rintro rfl
      exact ⟨[], [], rfl⟩
    · rintro ⟨a, b, hab⟩
      rcases List.append_eq_nil.mp (List.append_eq_nil.mp hab.symm).1 with ⟨_, h2⟩
      exact h2
  | n, c :: t => by
    simp only [subAt, Bool.or_eq_true, leadMatch_eq_true_iff, subAt_eq_true_iff n t]
    constructor
    · rintro (⟨s, hs⟩ | ⟨a, b, hab⟩)
      · exact ⟨[], s, by simp [hs]⟩
      · exact ⟨c :: a, b, by simp [hab]⟩
    · rintro ⟨a, b, hab⟩
      cases a with
      | nil => exact Or.inl ⟨b, by simpa using hab⟩
      | cons a0 as =>
        have hab1 : c :: t = a0 :: (as ++ n ++ b) := by simpa using hab
        injection hab1 with h1 h2
        exact Or.inr ⟨as, b, h2⟩

/-- Claim C8: for a non-empty query, search returns exactly the rows of the
whole table in which the query occurs as a case-insensitive substring of
the Description, SN/Lot or Model field; the empty query yields the
no-filter signal, which is distinct from an empty result list. -/
theorem c8_search_correct (inv : List Row) (q : String) (hq : ¬ q = "") :
    (∃ results, searchInventory inv q = some results ∧
      ∀ r, r ∈ results ↔ r ∈ inv ∧
        (OccursCI q r.description ∨ OccursCI q r.snLot ∨ OccursCI q r.model)) ∧
    searchInventory inv "" = none ∧ ¬ searchInventory inv "" = some [] := by
  refine ⟨⟨inv.filter (rowMatches q), ?_, fun r => ?_⟩, ?_, ?_⟩
  · simp [searchInventory, hq]
  · rw [List.mem_filter]
    simp only [rowMatches, ciContains, Bool.or_eq_true, subAt_eq_true_iff, OccursCI]
    rw [or_assoc]
  · simp [searchInventory]
  · simp [searchInventory]

/-- Claim C8 (witness): the concrete query LICOX against a table holding
one row whose Description contains Licox. -/
theorem c8_search_witness :
    ¬ ("LICOX" = "") ∧
    ((∃ results, searchInventory [licoxRow] "LICOX" = some results ∧
        ∀ r, r ∈ results ↔ r ∈ [licoxRow] ∧
          (OccursCI "LICOX" r.description ∨ OccursCI "LICOX" r.snLot ∨
            OccursCI "LICOX" r.model)) ∧
      searchInventory [licoxRow] "" = none ∧
      ¬ searchInventory [licoxRow] "" = some []) :=
  ⟨by decide, c8_search_correct [licoxRow] "LICOX" (by decide)⟩

/-- Claim C9 (counterexample): one click of delete-selected with the single
row of partition C3 selected empties the partition immediately — there is
no confirmation step distinct from the delete-selected action, so an empty
partition can be the consequence of a single unconfirmed delete. -/
theorem c9_confirmation_counterexample :
    ¬ (stateC9.inventory.filter (fun r => r.location == "C3") = []) ∧
    (deleteSelected stateC9 "C3" [rowC9]).inventory = [] := by
  decide

/-- Claim C9 (amended): delete-selected applies in a single unguarded step;
the only protection is that an empty selection is a no-op (the code shows a
warning and changes nothing), while selecting all rows of a partition and
clicking delete once empties the partition with no confirmation. -/
theorem c9_no_confirmation_amended :
    (∀ (s : AppState) (k : String), deleteSelected s k [] = s) ∧
    (deleteSelected stateC9b "C3" [rowC9a, rowC9b]).inventory.filter
      (fun r => r.location == "C3") = [] := by
  exact ⟨fun s k => rfl, by decide⟩

/-- Claim C10: with a non-empty selection, delete-selected removes from the
active partition exactly the rows whose Description, Model, SN/Lot and Unit
fields equal those of some selected row, and leaves every row at any other
location — valid or not — exactly unchanged. -/
theorem c10_delete_by_value (s : AppState) (k : String) (selected : List Row)
    (hsel : ¬ selected = []) :
    (deleteSelected s k selected).inventory.filter (fun r => r.location == k) =
      (s.inventory.filter (fun r => r.location == k)).filter
        (fun r => !(selected.any (fun q => matchRow r q))) ∧
    (deleteSelected s k selected).inventory.filter (fun r => !(r.location == k)) =
      s.inventory.filter (fun r => !(r.location == k)) := by
  have hne : selected.isEmpty = false := by
    cases selected with
    | nil => exact absurd rfl hsel
    | cons a t => rfl
  constructor
  · simp only [deleteSelected, hne, Bool.false_eq_true, if_false]
    rw [List.filter_append, filter_not_filter_eq_nil, List.nil_append,
      filter_key_of_filter_key]
  · simp only [deleteSelected, hne, Bool.false_eq_true, if_false]
    rw [List.filter_append, filter_filter_self, filter_not_of_filter_key,
      List.append_nil]

/-- Claim C10 (witness): selecting one of two field-identical rows of A1
deletes both, while the field-identical row at B2 stays. -/
theorem c10_delete_by_value_witness :
    ¬ ([rowC10] = ([] : List Row)) ∧
    ((deleteSelected stateC10 "A1" [rowC10]).inventory.filter
        (fun r => r.location == "A1") =
      (stateC10.inventory.filter (fun r => r.location == "A1")).filter
        (fun r => !([rowC10].any (fun q => matchRow r q))) ∧
      (deleteSelected stateC10 "A1" [rowC10]).inventory.filter
        (fun r => !(r.location == "A1")) =
      stateC10.inventory.filter (fun r => !(r.location == "A1"))) :=
  ⟨by decide, c10_delete_by_value stateC10 "A1" [rowC10] (by decide)⟩

end SampleRoom
